import Mathlib

/-!
Verification of the coffee-machine domain layer
(`backend/app/machine.py`, `backend/app/errors.py`, `backend/app/storage.py`,
`backend/app/main.py`).

Python integers are unbounded, so all integer quantities are modelled as
`Int`.  Python exceptions are modelled with `Except`: a method that can raise
returns `Except PyError α`.  Because Python mutation performed before a raise
persists, the machine-level operations return the post-state together with the
result, so a failing operation can still report a partially mutated machine.
-/

/-- The domain exceptions of `errors.py` (subclasses of `CoffeeMachineError`)
together with the built-in exceptions that the code can raise: `ValueError`
(raised by `CoffeeMachine.brew` for an unknown recipe; its message embeds the
requested key, the surrounding quote characters of the f-string are elided
here) and `json.JSONDecodeError` (raised by `json.load` on malformed file
content in `JSONStateStorage.load`). -/
inductive PyError where
  | containerEmpty (container_name : String) (required_amount : Int) (available_amount : Int)
  | containerOverflow (container_name : String) (attempted_amount : Int) (free_capacity : Int)
  | invalidFillAmount (container_name : String) (attempted_amount : Int)
  | valueError (message : String)
  | jsonDecodeError
deriving Repr, DecidableEq

/-- Whether an exception is an instance of `CoffeeMachineError`
(`errors.py`: `ContainerEmptyError`, `ContainerOverflowError`,
`InvalidFillAmountError` all derive from it; `ValueError` and
`json.JSONDecodeError` do not). -/
def isCoffeeMachineError : PyError → Bool
  | .containerEmpty _ _ _ => true
  | .containerOverflow _ _ _ => true
  | .invalidFillAmount _ _ => true
  | .valueError _ => false
  | .jsonDecodeError => false

/-- `Container` dataclass from `machine.py`. -/
structure Container where
  name : String
  capacity : Int
  level : Int
  unit : String
deriving Repr, DecidableEq

/-- `Container.use` from `machine.py`:
raises `ContainerEmptyError(self.name, amount, self.level)` when
`self.level < amount`, otherwise `self.level -= amount`. -/
def Container.use (c : Container) (amount : Int) : Except PyError Container :=
  if c.level < amount then
    .error (.containerEmpty c.name amount c.level)
  else
    .ok { c with level := c.level - amount }

/-- `Container.fill` from `machine.py`:
raises `InvalidFillAmountError` when `amount <= 0`, computes
`free_space = capacity - level` and raises `ContainerOverflowError` when
`free_space < amount`, otherwise `self.level += amount`. -/
def Container.fill (c : Container) (amount : Int) : Except PyError Container :=
  if amount ≤ 0 then
    .error (.invalidFillAmount c.name amount)
  else
    let free_space := c.capacity - c.level
    if free_space < amount then
      .error (.containerOverflow c.name amount free_space)
    else
      .ok { c with level := c.level + amount }

/-- The dict produced by `Container.to_dict` (keys `capacity`, `level`,
`unit`, `name`). -/
structure ContainerSnapshot where
  capacity : Int
  level : Int
  unit : String
  name : String
deriving Repr, DecidableEq

/-- `Container.to_dict` from `machine.py`. -/
def Container.to_dict (c : Container) : ContainerSnapshot :=
  { capacity := c.capacity, level := c.level, unit := c.unit, name := c.name }

/-- `Container.from_dict` from `machine.py`. -/
def Container.from_dict (d : ContainerSnapshot) : Container :=
  { name := d.name, capacity := d.capacity, level := d.level, unit := d.unit }

/-- One entry of the `RECIPES` table in `machine.py`. -/
structure Recipe where
  water_ml : Int
  coffee_g : Int
deriving Repr, DecidableEq

/-- The fixed `RECIPES` dict of `machine.py`, as an association list. -/
def RECIPES : List (String × Recipe) :=
  [("espresso", { water_ml := 24, coffee_g := 8 }),
   ("double_espresso", { water_ml := 48, coffee_g := 16 }),
   ("americano", { water_ml := 148, coffee_g := 16 }),
   ("ristretto", { water_ml := 16, coffee_g := 8 })]

/-- Dict lookup `RECIPES[recipe_key]` (with `recipe_key in RECIPES`
membership as `isSome`). -/
def lookupRecipe (recipe_key : String) : Option Recipe :=
  RECIPES.lookup recipe_key

/-- `CoffeeMachine._friendly_name`: underscores replaced by spaces, then
`str.title()` (recipe keys are lowercase words, so title-casing is
capitalizing each space-separated word). -/
def friendly_name (recipe_key : String) : String :=
  String.intercalate " " (((recipe_key.replace "_" " ").splitOn " ").map String.capitalize)

/-- `CoffeeMachine` dataclass from `machine.py`. -/
structure CoffeeMachine where
  water_container : Container
  coffee_container : Container
  last_message : Option String
deriving Repr, DecidableEq

/-- `CoffeeMachine.brew` from `machine.py`.  Raises `ValueError` when the key
is not in `RECIPES`; otherwise calls `water_container.use(water_ml)` then
`coffee_container.use(coffee_g)`, sets `last_message` and returns the recipe.
The returned machine is the state after the call, raised or not: when the
coffee-side `use` raises, the water container has already been debited. -/
def CoffeeMachine.brew (m : CoffeeMachine) (recipe_key : String) :
    CoffeeMachine × Except PyError Recipe :=
  match lookupRecipe recipe_key with
  | none => (m, .error (.valueError ("Unknown recipe " ++ recipe_key)))
  | some recipe =>
    match m.water_container.use recipe.water_ml with
    | .error e => (m, .error e)
    | .ok w =>
      let m1 : CoffeeMachine := { m with water_container := w }
      match m1.coffee_container.use recipe.coffee_g with
      | .error e => (m1, .error e)
      | .ok c =>
        ({ m1 with coffee_container := c,
                   last_message := some (friendly_name recipe_key ++ " is ready!") },
         .ok recipe)

/-- `CoffeeMachine.fill_water` from `machine.py`. -/
def CoffeeMachine.fill_water (m : CoffeeMachine) (amount_ml : Int) :
    CoffeeMachine × Except PyError Unit :=
  match m.water_container.fill amount_ml with
  | .error e => (m, .error e)
  | .ok w =>
    ({ m with water_container := w,
              last_message := some ("Added " ++ toString amount_ml ++ " ml of water.") },
     .ok ())

/-- `CoffeeMachine.fill_coffee` from `machine.py`. -/
def CoffeeMachine.fill_coffee (m : CoffeeMachine) (amount_g : Int) :
    CoffeeMachine × Except PyError Unit :=
  match m.coffee_container.fill amount_g with
  | .error e => (m, .error e)
  | .ok c =>
    ({ m with coffee_container := c,
              last_message := some ("Added " ++ toString amount_g ++ " g of coffee.") },
     .ok ())

/-- The dict produced by `CoffeeMachine.to_dict` / `CoffeeMachine.status`
(keys `water`, `coffee`, `last_message`). -/
structure MachineSnapshot where
  water : ContainerSnapshot
  coffee : ContainerSnapshot
  last_message : Option String
deriving Repr, DecidableEq

/-- `CoffeeMachine.to_dict` from `machine.py`. -/
def CoffeeMachine.to_dict (m : CoffeeMachine) : MachineSnapshot :=
  { water := m.water_container.to_dict,
    coffee := m.coffee_container.to_dict,
    last_message := m.last_message }

/-- `CoffeeMachine.status` from `machine.py`: builds the same dict as
`to_dict` and performs no mutation (it is a pure read). -/
def CoffeeMachine.status (m : CoffeeMachine) : MachineSnapshot :=
  { water := m.water_container.to_dict,
    coffee := m.coffee_container.to_dict,
    last_message := m.last_message }

/-- `CoffeeMachine.from_dict` from `machine.py` (`data.get("last_message")`
yields the stored value, `None` when absent; `to_dict` always stores it). -/
def CoffeeMachine.from_dict (d : MachineSnapshot) : CoffeeMachine :=
  { water_container := Container.from_dict d.water,
    coffee_container := Container.from_dict d.coffee,
    last_message := d.last_message }

/-- `default_machine` from `machine.py`: both containers start full
(level = capacity). -/
def default_machine (water_capacity coffee_capacity : Int) : CoffeeMachine :=
  { water_container :=
      { name := "water", capacity := water_capacity, level := water_capacity, unit := "ml" },
    coffee_container :=
      { name := "coffee", capacity := coffee_capacity, level := coffee_capacity, unit := "g" },
    last_message := none }

/-- The state of the file at `JSONStateStorage.path`.  The filesystem and the
`json` module are the runtime here, so they are modelled at their interface:
the file is absent (`path.exists()` false), holds a well-formed serialized
machine snapshot (`json.load` returns it), or is malformed (`json.load` raises
`json.JSONDecodeError`). -/
inductive FileContent where
  | absent
  | wellFormed (snapshot : MachineSnapshot)
  | malformed
deriving Repr, DecidableEq

/-- `JSONStateStorage.load` from `storage.py`: returns `None` when the file
does not exist, otherwise `json.load`s it (raising `json.JSONDecodeError` on
malformed content). -/
def JSONStateStorage.load (file : FileContent) : Except PyError (Option MachineSnapshot) :=
  match file with
  | .absent => .ok none
  | .wellFormed snapshot => .ok (some snapshot)
  | .malformed => .error .jsonDecodeError

/-- `JSONStateStorage.save` from `storage.py`: `json.dump`s the snapshot to a
temporary file and renames it over the target, so afterwards the file holds
exactly the well-formed serialized snapshot. -/
def JSONStateStorage.save (snapshot : MachineSnapshot) : FileContent :=
  .wellFormed snapshot

/-- A JSON response of the FastAPI layer in `main.py`: status code plus the
`message` field of the body. -/
structure HttpResponse where
  status_code : Nat
  message : String
deriving Repr, DecidableEq

/-- `str(exc)` for the exceptions the app raises: the `__str__` bodies of the
three dataclasses in `errors.py`, the `ValueError` message for an unknown
recipe, and the `json.JSONDecodeError` text. -/
def PyError.str : PyError → String
  | .containerEmpty n r a =>
      "Cannot make coffee because the " ++ n ++ " container only has " ++ toString a ++
        " available but " ++ toString r ++ " is required."
  | .containerOverflow n att free =>
      "Adding " ++ toString att ++ " to the " ++ n ++ " container would overflow it. " ++
        "It has room for only " ++ toString free ++ " more."
  | .invalidFillAmount n att =>
      "The amount (" ++ toString att ++ ") to add to the " ++ n ++ " container " ++
        "must be a positive number."
  | .valueError msg => msg
  | .jsonDecodeError => "Expecting value"

/-- `handle_machine_error` from `main.py`: registered for `CoffeeMachineError`,
returns HTTP 400 with `{"message": str(exc)}`. -/
def handle_machine_error (exc : PyError) : HttpResponse :=
  { status_code := 400, message := exc.str }

/-- `handle_unexpected_error` from `main.py`: registered for `Exception`,
returns HTTP 500 with the generic message. -/
def handle_unexpected_error (_exc : PyError) : HttpResponse :=
  { status_code := 500, message := "Unexpected error occurred" }

/-- FastAPI exception dispatch in `main.py`: exceptions that are instances of
`CoffeeMachineError` go to `handle_machine_error`, every other exception goes
to `handle_unexpected_error`. -/
def dispatch_error (exc : PyError) : HttpResponse :=
  if isCoffeeMachineError exc then handle_machine_error exc else handle_unexpected_error exc

/-- One call on the public `CoffeeMachine` interface. -/
inductive MachineOp where
  | brew (recipe_key : String)
  | fill_water (amount_ml : Int)
  | fill_coffee (amount_g : Int)
  | status
deriving Repr, DecidableEq

/-- The machine state after one call, whether the call succeeded or raised
(Python mutations done before a raise persist; `status` mutates nothing). -/
def applyOp (m : CoffeeMachine) : MachineOp → CoffeeMachine
  | .brew recipe_key => (m.brew recipe_key).1
  | .fill_water amount_ml => (m.fill_water amount_ml).1
  | .fill_coffee amount_g => (m.fill_coffee amount_g).1
  | .status => m

/-- The machine state after a sequence of calls. -/
def runOps (m : CoffeeMachine) : List MachineOp → CoffeeMachine
  | [] => m
  | op :: ops => runOps (applyOp m op) ops

/-- Container invariant from the spec data model: `0 <= level <= capacity`. -/
def Container.inv (c : Container) : Prop :=
  0 ≤ c.level ∧ c.level ≤ c.capacity

instance (c : Container) : Decidable c.inv := by
  unfold Container.inv
  infer_instance

/-- Machine invariant: both containers within bounds. -/
def CoffeeMachine.inv (m : CoffeeMachine) : Prop :=
  m.water_container.inv ∧ m.coffee_container.inv

instance (m : CoffeeMachine) : Decidable m.inv := by
  unfold CoffeeMachine.inv
  infer_instance

/-- The immutable identity of a container: everything but `level`. -/
def Container.sameFrame (a b : Container) : Prop :=
  a.name = b.name ∧ a.capacity = b.capacity ∧ a.unit = b.unit

/-- The immutable identity of a machine: both containers' `name`, `capacity`
and `unit`. -/
def CoffeeMachine.sameFrame (a b : CoffeeMachine) : Prop :=
  a.water_container.sameFrame b.water_container ∧
    a.coffee_container.sameFrame b.coffee_container

/-- Every recipe in the fixed table uses strictly positive amounts. -/
theorem lookupRecipe_pos (k : String) (r : Recipe) (h : lookupRecipe k = some r) :
    0 < r.water_ml ∧ 0 < r.coffee_g := by
  unfold lookupRecipe RECIPES at h
  simp only [List.lookup] at h
  repeat' split at h
  all_goals simp_all
  all_goals subst h
  all_goals decide

/-- A successful `use` keeps the container within bounds when the amount is
nonnegative. -/
theorem Container.use_inv (c : Container) (a : Int) (c' : Container)
    (hc : c.inv) (ha : 0 ≤ a) (h : c.use a = .ok c') : c'.inv := by
  unfold Container.use at h
  split at h
  next => exact absurd h (by simp)
  next hge =>
    injection h with h
    subst h
    simp [Container.inv] at hc ⊢
    omega

/-- A successful `fill` keeps the container within bounds. -/
theorem Container.fill_inv (c : Container) (a : Int) (c' : Container)
    (hc : c.inv) (h : c.fill a = .ok c') : c'.inv := by
  simp only [Container.fill] at h
  split at h
  next => exact absurd h (by simp)
  next hpos =>
    split at h
    next => exact absurd h (by simp)
    next hfree =>
      injection h with h
      subst h
      simp [Container.inv] at hc ⊢
      omega

/-- `use` never touches `name`, `capacity` or `unit`. -/
theorem Container.use_frame (c : Container) (a : Int) (c' : Container)
    (h : c.use a = .ok c') : c.sameFrame c' := by
  unfold Container.use at h
  split at h
  next => exact absurd h (by simp)
  next =>
    injection h with h
    subst h
    exact ⟨rfl, rfl, rfl⟩

/-- `fill` never touches `name`, `capacity` or `unit`. -/
theorem Container.fill_frame (c : Container) (a : Int) (c' : Container)
    (h : c.fill a = .ok c') : c.sameFrame c' := by
  simp only [Container.fill] at h
  split at h
  next => exact absurd h (by simp)
  next =>
    split at h
    next => exact absurd h (by simp)
    next =>
      injection h with h
      subst h
      exact ⟨rfl, rfl, rfl⟩

/-- One call, succeeding or raising, keeps both containers within bounds. -/
theorem applyOp_inv (m : CoffeeMachine) (op : MachineOp) (hm : m.inv) :
    (applyOp m op).inv := by
  obtain ⟨hw, hc⟩ := hm
  cases op with
  | brew recipe_key =>
    simp only [applyOp, CoffeeMachine.brew]
    cases hr : lookupRecipe recipe_key with
    | none => exact ⟨hw, hc⟩
    | some r =>
      obtain ⟨hwpos, hcpos⟩ := lookupRecipe_pos recipe_key r hr
      simp only []
      cases hu : m.water_container.use r.water_ml with
      | error e => exact ⟨hw, hc⟩
      | ok w =>
        have hwinv := Container.use_inv _ _ _ hw (le_of_lt hwpos) hu
        simp only []
        cases hcu : Container.use m.coffee_container r.coffee_g with
        | error e => exact ⟨hwinv, hc⟩
        | ok c =>
          exact ⟨hwinv, Container.use_inv _ _ _ hc (le_of_lt hcpos) hcu⟩
  | fill_water amount_ml =>
    simp only [applyOp, CoffeeMachine.fill_water]
    cases hf : m.water_container.fill amount_ml with
    | error e => exact ⟨hw, hc⟩
    | ok w => exact ⟨Container.fill_inv _ _ _ hw hf, hc⟩
  | fill_coffee amount_g =>
    simp only [applyOp, CoffeeMachine.fill_coffee]
    cases hf : m.coffee_container.fill amount_g with
    | error e => exact ⟨hw, hc⟩
    | ok c => exact ⟨hw, Container.fill_inv _ _ _ hc hf⟩
  | status => exact ⟨hw, hc⟩

/-- A call sequence starting from an in-bounds machine stays in bounds. -/
theorem runOps_inv (ops : List MachineOp) :
    ∀ m : CoffeeMachine, m.inv → (runOps m ops).inv := by
  induction ops with
  | nil => intro m hm; exact hm
  | cons op ops ih =>
    intro m hm
    exact ih _ (applyOp_inv m op hm)

/-- One call, succeeding or raising, never changes a container's `name`,
`capacity` or `unit`. -/
theorem applyOp_frame (m : CoffeeMachine) (op : MachineOp) :
    m.sameFrame (applyOp m op) := by
  cases op with
  | brew recipe_key =>
    simp only [applyOp, CoffeeMachine.brew]
    cases hr : lookupRecipe recipe_key with
    | none => exact ⟨⟨rfl, rfl, rfl⟩, ⟨rfl, rfl, rfl⟩⟩
    | some r =>
      simp only []
      cases hu : m.water_container.use r.water_ml with
      | error e => exact ⟨⟨rfl, rfl, rfl⟩, ⟨rfl, rfl, rfl⟩⟩
      | ok w =>
        have hwf := Container.use_frame _ _ _ hu
        simp only []
        cases hcu : Container.use m.coffee_container r.coffee_g with
        | error e => exact ⟨hwf, ⟨rfl, rfl, rfl⟩⟩
        | ok c => exact ⟨hwf, Container.use_frame _ _ _ hcu⟩
  | fill_water amount_ml =>
    simp only [applyOp, CoffeeMachine.fill_water]
    cases hf : m.water_container.fill amount_ml with
    | error e => exact ⟨⟨rfl, rfl, rfl⟩, ⟨rfl, rfl, rfl⟩⟩
    | ok w => exact ⟨Container.fill_frame _ _ _ hf, ⟨rfl, rfl, rfl⟩⟩
  | fill_coffee amount_g =>
    simp only [applyOp, CoffeeMachine.fill_coffee]
    cases hf : m.coffee_container.fill amount_g with
    | error e => exact ⟨⟨rfl, rfl, rfl⟩, ⟨rfl, rfl, rfl⟩⟩
    | ok c => exact ⟨⟨rfl, rfl, rfl⟩, Container.fill_frame _ _ _ hf⟩
  | status => exact ⟨⟨rfl, rfl, rfl⟩, ⟨rfl, rfl, rfl⟩⟩

/-- C6: `use(amount)` with `amount > level` raises `ContainerEmpty` carrying
the container name, the requested amount and the pre-call level as the
available amount (the container is left unchanged: no updated container is
produced); with `amount <= level` it succeeds and the level drops by exactly
`amount`, all other fields unchanged. -/
theorem use_cases (c : Container) (amount : Int) :
    (c.level < amount →
      c.use amount = .error (.containerEmpty c.name amount c.level)) ∧
    (amount ≤ c.level →
      c.use amount = .ok { c with level := c.level - amount }) := by
  constructor
  · intro h
    unfold Container.use
    rw [if_pos h]
  · intro h
    unfold Container.use
    rw [if_neg (by omega)]

theorem use_cases_witness :
    ((10 : Int) < 24 ∧
      Container.use { name := "water", capacity := 200, level := 10, unit := "ml" } 24 =
        .error (.containerEmpty "water" 24 10)) ∧
    ((8 : Int) ≤ 92 ∧
      Container.use { name := "coffee", capacity := 100, level := 92, unit := "g" } 8 =
        .ok { name := "coffee", capacity := 100, level := 84, unit := "g" }) :=
  ⟨⟨by decide,
    (use_cases { name := "water", capacity := 200, level := 10, unit := "ml" } 24).1
      (by decide)⟩,
   ⟨by decide,
    (use_cases { name := "coffee", capacity := 100, level := 92, unit := "g" } 8).2
      (by decide)⟩⟩

/-- C5: `fill(amount)` raises `InvalidFillAmount` when `amount <= 0`; for a
positive amount exceeding `capacity - level` it raises `ContainerOverflow`
carrying the attempted amount and `free_capacity = capacity - level`; in both
failure cases no updated container is produced (level unchanged); otherwise
the level rises by exactly `amount`.  The two failure guards are checked in
the source's order: the positivity check comes first. -/
theorem fill_cases (c : Container) (amount : Int) :
    (amount ≤ 0 →
      c.fill amount = .error (.invalidFillAmount c.name amount)) ∧
    (0 < amount → c.capacity - c.level < amount →
      c.fill amount = .error (.containerOverflow c.name amount (c.capacity - c.level))) ∧
    (0 < amount → amount ≤ c.capacity - c.level →
      c.fill amount = .ok { c with level := c.level + amount }) := by
  refine ⟨?_, ?_, ?_⟩
  · intro h
    simp only [Container.fill]
    rw [if_pos h]
  · intro h0 hov
    simp only [Container.fill]
    rw [if_neg (by omega), if_pos hov]
  · intro h0 hfree
    simp only [Container.fill]
    rw [if_neg (by omega), if_neg (by omega)]

theorem fill_cases_witness :
    ((0 : Int) ≤ 0 ∧
      Container.fill { name := "coffee", capacity := 100, level := 92, unit := "g" } 0 =
        .error (.invalidFillAmount "coffee" 0)) ∧
    ((0 : Int) < 20 ∧ (200 : Int) - 190 < 20 ∧
      Container.fill { name := "water", capacity := 200, level := 190, unit := "ml" } 20 =
        .error (.containerOverflow "water" 20 10)) ∧
    ((0 : Int) < 10 ∧ (10 : Int) ≤ 200 - 190 ∧
      Container.fill { name := "water", capacity := 200, level := 190, unit := "ml" } 10 =
        .ok { name := "water", capacity := 200, level := 200, unit := "ml" }) :=
  ⟨⟨by decide,
    (fill_cases { name := "coffee", capacity := 100, level := 92, unit := "g" } 0).1
      (by decide)⟩,
   ⟨by decide, by decide,
    (fill_cases { name := "water", capacity := 200, level := 190, unit := "ml" } 20).2.1
      (by decide) (by decide)⟩,
   ⟨by decide, by decide,
    (fill_cases { name := "water", capacity := 200, level := 190, unit := "ml" } 10).2.2
      (by decide) (by decide)⟩⟩

/-- C10: `Container.use` never checks that its argument is positive: for a
container with nonnegative level and any `amount <= 0` the guard
`level < amount` is false, so `use` succeeds and sets the level to
`level - amount`, which is at least the old level; concretely, a container at
level 0 with capacity 5 ends at level 10 > capacity after `use(-10)`. -/
theorem use_nonpositive_unchecked (c : Container) (amount : Int)
    (hl : 0 ≤ c.level) (ha : amount ≤ 0) :
    (c.use amount = .ok { c with level := c.level - amount } ∧
      c.level ≤ c.level - amount) ∧
    (Container.use { name := "water", capacity := 5, level := 0, unit := "ml" } (-10) =
        .ok { name := "water", capacity := 5, level := 10, unit := "ml" } ∧
      ({ name := "water", capacity := 5, level := 10, unit := "ml" } : Container).capacity <
        ({ name := "water", capacity := 5, level := 10, unit := "ml" } : Container).level) := by
  refine ⟨⟨?_, by omega⟩, by rfl, by decide⟩
  unfold Container.use
  rw [if_neg (by omega)]

theorem use_nonpositive_unchecked_witness :
    (0 : Int) ≤ 0 ∧ (-10 : Int) ≤ 0 ∧
    (Container.use { name := "water", capacity := 5, level := 0, unit := "ml" } (-10) =
        .ok { name := "water", capacity := 5, level := 10, unit := "ml" } ∧
      (0 : Int) ≤ 0 - (-10)) :=
  ⟨by decide, by decide,
   ⟨(use_nonpositive_unchecked { name := "water", capacity := 5, level := 0, unit := "ml" }
      (-10) (by decide) (by decide)).1.1,
    (use_nonpositive_unchecked { name := "water", capacity := 5, level := 0, unit := "ml" }
      (-10) (by decide) (by decide)).1.2⟩⟩

/-- C2: for every recipe in the fixed table and every machine whose two
levels are at least the recipe's requirements, `brew` succeeds, returns
exactly the recipe's amounts, and reduces the water level by exactly
`water_ml` and the coffee level by exactly `coffee_g`; in particular
`default_machine(200,100).brew("espresso")` returns `{water_ml:24,
coffee_g:8}` and leaves water level 176 and coffee level 92. -/
theorem brew_reduces_levels (m : CoffeeMachine) (recipe_key : String) (r : Recipe)
    (hr : lookupRecipe recipe_key = some r)
    (hw : r.water_ml ≤ m.water_container.level)
    (hc : r.coffee_g ≤ m.coffee_container.level) :
    ((m.brew recipe_key).2 = .ok r ∧
      (m.brew recipe_key).1.water_container.level = m.water_container.level - r.water_ml ∧
      (m.brew recipe_key).1.coffee_container.level = m.coffee_container.level - r.coffee_g) ∧
    (((default_machine 200 100).brew "espresso").2 = .ok { water_ml := 24, coffee_g := 8 } ∧
      ((default_machine 200 100).brew "espresso").1.water_container.level = 176 ∧
      ((default_machine 200 100).brew "espresso").1.coffee_container.level = 92) := by
  constructor
  · have hwu : m.water_container.use r.water_ml =
        .ok { m.water_container with level := m.water_container.level - r.water_ml } := by
      unfold Container.use
      rw [if_neg (by omega)]
    have hcu : m.coffee_container.use r.coffee_g =
        .ok { m.coffee_container with level := m.coffee_container.level - r.coffee_g } := by
      unfold Container.use
      rw [if_neg (by omega)]
    simp only [CoffeeMachine.brew, hr, hwu, hcu]
    refine ⟨?_, ?_, ?_⟩ <;> simp
  · exact ⟨rfl, rfl, rfl⟩

theorem brew_reduces_levels_witness :
    (lookupRecipe "ristretto" = some { water_ml := 16, coffee_g := 8 } ∧
      (16 : Int) ≤ (default_machine 200 100).water_container.level ∧
      (8 : Int) ≤ (default_machine 200 100).coffee_container.level) ∧
    (((default_machine 200 100).brew "ristretto").2 = .ok { water_ml := 16, coffee_g := 8 } ∧
      ((default_machine 200 100).brew "ristretto").1.water_container.level = 200 - 16 ∧
      ((default_machine 200 100).brew "ristretto").1.coffee_container.level = 100 - 8) :=
  ⟨⟨rfl, by decide, by decide⟩,
   (brew_reduces_levels (default_machine 200 100) "ristretto"
      { water_ml := 16, coffee_g := 8 } rfl (by decide) (by decide)).1⟩

/-- C1 fails on the code: a `brew` whose water level suffices but whose
coffee level is short does raise `ContainerEmpty`, but the water container
has already been debited when the coffee-side `use` raises.  Concretely, a
machine with water level 24 and coffee level 7 brewing `"espresso"`
(needs 24 ml / 8 g) raises `ContainerEmpty("coffee", 8, 7)` and its water
level afterwards is 0, not the claimed unchanged 24. -/
theorem brew_coffee_failure_debits_water :
    ((CoffeeMachine.brew
        { water_container := { name := "water", capacity := 200, level := 24, unit := "ml" },
          coffee_container := { name := "coffee", capacity := 100, level := 7, unit := "g" },
          last_message := none } "espresso").2 =
      .error (.containerEmpty "coffee" 8 7)) ∧
    ((CoffeeMachine.brew
        { water_container := { name := "water", capacity := 200, level := 24, unit := "ml" },
          coffee_container := { name := "coffee", capacity := 100, level := 7, unit := "g" },
          last_message := none } "espresso").1.water_container.level = 0) :=
  ⟨rfl, rfl⟩

/-- C3 fails on the code: brewing an unknown recipe does raise an error that
carries the requested name, and it does so exactly when the key is absent
from `RECIPES`, but the error is a plain `ValueError`, not a
`CoffeeMachineError` domain error, so the FastAPI layer's
`CoffeeMachineError` handler does not catch it and the generic `Exception`
handler renders it as HTTP 500 "Unexpected error occurred" — a generic
server failure, not a client error. -/
theorem unknown_recipe_is_generic_500 :
    lookupRecipe "latte" = none ∧
    ((default_machine 200 100).brew "latte").2 =
      .error (.valueError "Unknown recipe latte") ∧
    ((default_machine 200 100).brew "latte").1 = default_machine 200 100 ∧
    isCoffeeMachineError (.valueError "Unknown recipe latte") = false ∧
    dispatch_error (.valueError "Unknown recipe latte") =
      { status_code := 500, message := "Unexpected error occurred" } :=
  ⟨rfl, rfl, rfl, rfl, rfl⟩

/-- C4: every machine reachable from `default_machine(W, C)` with `W > 0`,
`C > 0` by any sequence of `brew` / `fill_water` / `fill_coffee` / `status`
calls — each one succeeding or raising — keeps both containers within
`0 <= level <= capacity`. -/
theorem levels_within_capacity (W C : Int) (hW : 0 < W) (hC : 0 < C)
    (ops : List MachineOp) : (runOps (default_machine W C) ops).inv := by
  refine runOps_inv ops (default_machine W C) ⟨⟨?_, ?_⟩, ⟨?_, ?_⟩⟩ <;>
    simp [default_machine] <;> omega

theorem levels_within_capacity_witness :
    (0 : Int) < 200 ∧ (0 : Int) < 100 ∧
    (runOps (default_machine 200 100)
      [MachineOp.brew "espresso", MachineOp.fill_water 30, MachineOp.brew "latte",
       MachineOp.fill_coffee (-3), MachineOp.brew "americano", MachineOp.fill_water 500,
       MachineOp.status]).inv :=
  ⟨by decide, by decide,
   levels_within_capacity 200 100 (by decide) (by decide)
     [MachineOp.brew "espresso", MachineOp.fill_water 30, MachineOp.brew "latte",
      MachineOp.fill_coffee (-3), MachineOp.brew "americano", MachineOp.fill_water 500,
      MachineOp.status]⟩

/-- C7: serializing a machine and deserializing the result reconstructs a
machine with identical container fields and `last_message`; at the storage
level, a `save` followed by a `load` over the same path yields exactly the
saved snapshot. -/
theorem snapshot_roundtrip (m : CoffeeMachine) :
    CoffeeMachine.from_dict m.to_dict = m ∧
    JSONStateStorage.load (JSONStateStorage.save m.to_dict) = .ok (some m.to_dict) :=
  ⟨rfl, rfl⟩

/-- C8: the JSON backend's `load` returns `None` when the file does not
exist and raises the deserialization error (`json.JSONDecodeError`, the
implementation of the spec's `StorageCorrupt`) on malformed content; that
error is not a `CoffeeMachineError`, so the transport layer renders it as an
HTTP 500 server failure, while the domain validation errors are rendered as
HTTP 400 client errors. -/
theorem json_load_spec :
    JSONStateStorage.load .absent = .ok none ∧
    JSONStateStorage.load .malformed = .error .jsonDecodeError ∧
    (∀ snap : MachineSnapshot, JSONStateStorage.load (.wellFormed snap) = .ok (some snap)) ∧
    isCoffeeMachineError .jsonDecodeError = false ∧
    dispatch_error .jsonDecodeError =
      { status_code := 500, message := "Unexpected error occurred" } ∧
    (∀ n : String, ∀ r a : Int, dispatch_error (.containerEmpty n r a) =
      { status_code := 400, message := (PyError.containerEmpty n r a).str }) ∧
    (∀ n : String, ∀ att free : Int, dispatch_error (.containerOverflow n att free) =
      { status_code := 400, message := (PyError.containerOverflow n att free).str }) ∧
    (∀ n : String, ∀ att : Int, dispatch_error (.invalidFillAmount n att) =
      { status_code := 400, message := (PyError.invalidFillAmount n att).str }) :=
  ⟨rfl, rfl, fun _ => rfl, rfl, rfl,
   fun _ _ _ => rfl, fun _ _ _ => rfl, fun _ _ => rfl⟩

/-- C9: `status` mutates nothing (it returns the same dict as `to_dict` and
leaves the machine untouched), and no public machine operation — `brew`,
`fill_water`, `fill_coffee` or `status`, succeeding or raising — ever
changes the `name`, `capacity` or `unit` of either container. -/
theorem ops_preserve_identity_fields (m : CoffeeMachine) (op : MachineOp) :
    m.sameFrame (applyOp m op) ∧ applyOp m .status = m ∧ m.status = m.to_dict :=
  ⟨applyOp_frame m op, rfl, rfl⟩
